import Mathlib

/-!
Verification of the keploy outbound-interception core against its
specification.  The Go sources are shallowly embedded: byte buffers become
`List UInt8`, Go's fallible slicing is made explicit (an out-of-range slice
is a runtime panic, modelled as a distinguished error), and stateful code
becomes explicit state passing.
-/

set_option autoImplicit false

/-- Errors a decoding run can end in.  `msg` is a Go `errors.New` return;
`panic` is a Go runtime panic from an out-of-range index or slice;
`hang` marks a loop iteration that consumes no input, on which the Go
`for` loop repeats the same state forever. -/
inductive RunError
  | msg (s : String)
  | panic
  | hang
deriving Repr, DecidableEq

/-- Go `l[i]`: the element at `i`, or a runtime panic when out of range. -/
def goIndex (l : List UInt8) (i : Nat) : Except RunError UInt8 :=
  if i < l.length then .ok (l.getD i 0) else .error .panic

/-- Go `l[:n]`: the first `n` elements, or a runtime panic when `n` exceeds the length. -/
def goTake (l : List UInt8) (n : Nat) : Except RunError (List UInt8) :=
  if n ≤ l.length then .ok (l.take n) else .error .panic

/-- Go `l[n:]`: all but the first `n` elements, or a runtime panic when `n` exceeds the length. -/
def goDrop (l : List UInt8) (n : Nat) : Except RunError (List UInt8) :=
  if n ≤ l.length then .ok (l.drop n) else .error .panic

/-- Go `bytes.IndexByte`: index of the first occurrence of `target`, `none` for Go's `-1`. -/
def indexByte : List UInt8 → UInt8 → Option Nat
  | [], _ => none
  | b :: rest, target =>
    if b = target then some 0 else (indexByte rest target).map (· + 1)

/-- Little-endian value of a byte list (least significant byte first). -/
def leBytesToNat (l : List UInt8) : Nat :=
  l.foldr (fun b acc => acc * 256 + b.toNat) 0

/-- Go `binary.LittleEndian.Uint32` of four bytes. -/
def leUint32 (b0 b1 b2 b3 : UInt8) : Nat :=
  leBytesToNat [b0, b1, b2, b3]

/-- Go `binary.BigEndian.Uint32` of four bytes. -/
def beUint32 (b0 b1 b2 b3 : UInt8) : Nat :=
  b0.toNat * 16777216 + b1.toNat * 65536 + b2.toNat * 256 + b3.toNat

deriving instance DecidableEq for Except

/-- Capability flag: the client supports plugin authentication. -/
def CLIENT_PLUGIN_AUTH : Nat := 0x080000

/-- Capability flag: the client connects with a database name. -/
def CLIENT_CONNECT_WITH_DB : Nat := 0x08

/-- Capability flag: the client sends connection attributes. -/
def CLIENT_CONNECT_ATTRS : Nat := 0x0100000

/-- Capability flag: Zstandard compression support. -/
def CLIENT_ZSTD_COMPRESSION_ALGORITHM : Nat := 0x010000

/-- Capability flag: length-encoded client auth data. -/
def CLIENT_PLUGIN_AUTH_LENENC_CLIENT_DATA : Nat := 0x0200000

/-- The decoded MySQL handshake response record.  Go strings are raw byte
strings, so the string-valued fields are kept as byte lists; the connection
attributes map is an insertion-ordered association list with overwrite on
duplicate keys, `none` when the Go map was never allocated. -/
structure MySQLHandshakeResponse where
  CapabilityFlags : Nat
  MaxPacketSize : Nat
  CharacterSet : UInt8
  Reserved : List UInt8
  Username : List UInt8
  AuthData : List UInt8
  Database : List UInt8
  AuthPluginName : List UInt8
  ConnectAttributes : Option (List (List UInt8 × List UInt8))
  ZstdCompressionLevel : UInt8
deriving Repr, DecidableEq

/-- decodeLengthEncodedInteger from the mysql package: MySQL's
0xfb/0xfc/0xfd/0xfe length-prefix scheme, returning (length, isNull,
bytesRead).  A prefix whose payload is missing yields bytesRead 0, exactly as
in the source. -/
def decodeLengthEncodedInteger (b : List UInt8) : Nat × Bool × Nat :=
  match b with
  | [] => (0, true, 0)
  | b0 :: _ =>
    if b0 = 0xfb then (0, true, 1)
    else if b0 = 0xfc then
      if b.length < 3 then (0, false, 0)
      else (leBytesToNat ((b.drop 1).take 2), false, 3)
    else if b0 = 0xfd then
      if b.length < 4 then (0, false, 0)
      else (leBytesToNat ((b.drop 1).take 3), false, 4)
    else if b0 = 0xfe then
      if b.length < 9 then (0, false, 0)
      else (leBytesToNat ((b.drop 1).take 8), false, 9)
    else (b0.toNat, false, 1)

/-- The auth-data section of decodeHandshakeResponse.  With
CLIENT_PLUGIN_AUTH_LENENC_CLIENT_DATA set: one length byte, then (when the
length is positive and after an explicit bounds check) that many auth bytes,
which are consumed.  Otherwise the legacy branch: `authLen := int(data[0]);
data = data[2:]; AuthData = data[:authLen]` — one length byte, one skipped
byte, and the auth bytes are read but not consumed.  Returns (AuthData,
remaining data). -/
def readAuth (flags : Nat) (data : List UInt8) : Except RunError (List UInt8 × List UInt8) :=
  if flags &&& CLIENT_PLUGIN_AUTH_LENENC_CLIENT_DATA ≠ 0 then
    match goIndex data 0 with
    | .error e => .error e
    | .ok b0 =>
      match goDrop data 1 with
      | .error e => .error e
      | .ok data1 =>
        if b0.toNat > 0 then
          if data1.length < b0.toNat then
            .error (.msg "handshake response packet too short for auth data")
          else .ok (data1.take b0.toNat, data1.drop b0.toNat)
        else .ok ([], data1)
  else
    match goIndex data 0 with
    | .error e => .error e
    | .ok b0 =>
      match goDrop data 2 with
      | .error e => .error e
      | .ok data2 =>
        match goTake data2 b0.toNat with
        | .error e => .error e
        | .ok authData => .ok (authData, data2)

/-- The database-name section of decodeHandshakeResponse: when
CLIENT_CONNECT_WITH_DB is set, a null-terminated name is taken, but a missing
terminator is silently skipped (the source guards the assignment with
`if idx != -1` and has no else branch).  Returns (Database, remaining data). -/
def readDatabase (flags : Nat) (data : List UInt8) : List UInt8 × List UInt8 :=
  if flags &&& CLIENT_CONNECT_WITH_DB ≠ 0 then
    match indexByte data 0 with
    | some idx => (data.take idx, data.drop (idx + 1))
    | none => ([], data)
  else ([], data)

/-- The auth-plugin-name section of decodeHandshakeResponse: when
CLIENT_PLUGIN_AUTH is set, a null-terminated name is required and a missing
terminator is an error.  Returns (AuthPluginName, remaining data). -/
def readPluginName (flags : Nat) (data : List UInt8) : Except RunError (List UInt8 × List UInt8) :=
  if flags &&& CLIENT_PLUGIN_AUTH ≠ 0 then
    match indexByte data 0 with
    | none => .error (.msg "malformed handshake response packet: missing null terminator for AuthPluginName")
    | some idx => .ok (data.take idx, data.drop (idx + 1))
  else .ok ([], data)

/-- Go map assignment `attrs[key] = value` on an insertion-ordered
association list: overwrite an existing key, append a new one. -/
def attrInsert (m : List (List UInt8 × List UInt8)) (key value : List UInt8) :
    List (List UInt8 × List UInt8) :=
  if m.any (fun p => p.1 == key) then
    m.map (fun p => if p.1 == key then (key, value) else p)
  else m ++ [(key, value)]

/-- One iteration of the connection-attribute loop: a length-encoded key
length, the key, a length-encoded value length, the value.  A null
length-encoded integer is an error; an out-of-range slice is a panic.
Returns (key, value, rest). -/
def attrStep (ad : List UInt8) : Except RunError (List UInt8 × List UInt8 × List UInt8) :=
  let (keyLength, isNullK, n1) := decodeLengthEncodedInteger ad
  if isNullK then
    .error (.msg "malformed handshake response packet: null length encoded integer for connection attribute key")
  else
    match goDrop ad n1 with
    | .error e => .error e
    | .ok ad1 =>
      match goTake ad1 keyLength with
      | .error e => .error e
      | .ok key =>
        match goDrop ad1 keyLength with
        | .error e => .error e
        | .ok ad2 =>
          let (valueLength, isNullV, n2) := decodeLengthEncodedInteger ad2
          if isNullV then
            .error (.msg "malformed handshake response packet: null length encoded integer for connection attribute value")
          else
            match goDrop ad2 n2 with
            | .error e => .error e
            | .ok ad3 =>
              match goTake ad3 valueLength with
              | .error e => .error e
              | .ok value =>
                match goDrop ad3 valueLength with
                | .error e => .error e
                | .ok ad4 => .ok (key, value, ad4)

/-- The `for len(attributesData) > 0` loop of decodeHandshakeResponse.  The
loop is run with fuel `attributesData.length + 1`: every iteration that
consumes at least one byte shortens the list, so the fuel runs out exactly
when some iteration consumed nothing — and then the Go loop repeats that
same iteration forever, which `RunError.hang` records. -/
def readAttrsLoop : Nat → List (List UInt8 × List UInt8) → List UInt8 →
    Except RunError (List (List UInt8 × List UInt8))
  | 0, _, _ => .error .hang
  | fuel + 1, acc, ad =>
    if ad.length = 0 then .ok acc
    else
      match attrStep ad with
      | .error e => .error e
      | .ok (key, value, rest) => readAttrsLoop fuel (attrInsert acc key value) rest

/-- The connection-attributes section of decodeHandshakeResponse: when
CLIENT_CONNECT_ATTRS is set, a length-encoded total length followed by the
attribute block, parsed pairwise.  Returns (ConnectAttributes, remaining
data). -/
def readConnectAttributes (flags : Nat) (data : List UInt8) :
    Except RunError (Option (List (List UInt8 × List UInt8)) × List UInt8) :=
  if flags &&& CLIENT_CONNECT_ATTRS ≠ 0 then
    if data.length < 4 then
      .error (.msg "handshake response packet too short for connection attributes")
    else
      let (totalLength, isNull, n) := decodeLengthEncodedInteger data
      if isNull ∨ n = 0 then
        .error (.msg "error decoding total length of connection attributes")
      else
        match goDrop data n with
        | .error e => .error e
        | .ok data1 =>
          match goTake data1 totalLength with
          | .error e => .error e
          | .ok attributesData =>
            match goDrop data1 totalLength with
            | .error e => .error e
            | .ok data2 =>
              match readAttrsLoop (attributesData.length + 1) [] attributesData with
              | .error e => .error e
              | .ok attrs => .ok (some attrs, data2)
  else .ok (none, data)

/-- The trailing zstd-level byte of decodeHandshakeResponse: read only when
residual data is present and CLIENT_ZSTD_COMPRESSION_ALGORITHM is set (the
source's inner too-short check is unreachable under the outer `len > 0`
guard). -/
def readZstdLevel (flags : Nat) (data : List UInt8) : UInt8 :=
  if data.length > 0 then
    if flags &&& CLIENT_ZSTD_COMPRESSION_ALGORITHM ≠ 0 then data.getD 0 0
    else 0
  else 0

/-- decodeHandshakeResponse from the mysql package: fixed 32-byte prefix
(capabilities, max packet size, charset, 23 reserved bytes), null-terminated
username, then the capability-dependent sections in source order. -/
def decodeHandshakeResponse (data0 : List UInt8) :
    Except RunError MySQLHandshakeResponse :=
  if data0.length < 32 then .error (.msg "handshake response packet too short")
  else
    let capabilityFlags := leUint32 (data0.getD 0 0) (data0.getD 1 0) (data0.getD 2 0) (data0.getD 3 0)
    let maxPacketSize := leUint32 (data0.getD 4 0) (data0.getD 5 0) (data0.getD 6 0) (data0.getD 7 0)
    let characterSet := data0.getD 8 0
    let reserved := (data0.drop 9).take 23
    let data := data0.drop 32
    match indexByte data 0 with
    | none => .error (.msg "malformed handshake response packet: missing null terminator for Username")
    | some idx =>
      let username := data.take idx
      let dataU := data.drop (idx + 1)
      match readAuth capabilityFlags dataU with
      | .error e => .error e
      | .ok (authData, dataA) =>
        let (database, dataD) := readDatabase capabilityFlags dataA
        match readPluginName capabilityFlags dataD with
        | .error e => .error e
        | .ok (authPluginName, dataP) =>
          match readConnectAttributes capabilityFlags dataP with
          | .error e => .error e
          | .ok (connectAttributes, dataC) =>
            .ok {
              CapabilityFlags := capabilityFlags
              MaxPacketSize := maxPacketSize
              CharacterSet := characterSet
              Reserved := reserved
              Username := username
              AuthData := authData
              Database := database
              AuthPluginName := authPluginName
              ConnectAttributes := connectAttributes
              ZstdCompressionLevel := readZstdLevel capabilityFlags dataC }

/-- PostgresV1.MatchType from the postgres integration: the buffer must hold at
least 8 bytes and bytes [4..8) read big-endian must be the SSLRequest code
80877103 or protocol version 3.0 (0x00030000).  The guard makes the `getD`
accesses in-bounds, mirroring `reqBuf[4:8]` under the length check. -/
def PostgresV1.MatchType (reqBuf : List UInt8) : Bool :=
  if reqBuf.length < 8 then false
  else
    let version := beUint32 (reqBuf.getD 4 0) (reqBuf.getD 5 0) (reqBuf.getD 6 0) (reqBuf.getD 7 0)
    if version = 80877103 then true
    else version == 0x00030000

/-- Generic.MatchType from the generic integration: the generic codec never
claims a connection during classification. -/
def Generic.MatchType (_buffer : List UInt8) : Bool :=
  false

/-- The spec's PG classifier scenario buffer `00 00 00 08 00 03 00 00`. -/
def pgStartupScenario : List UInt8 :=
  [0x00, 0x00, 0x00, 0x08, 0x00, 0x03, 0x00, 0x00]

/-- The bytes of the string "mysql_native_password". -/
def mysqlNativePassword : List UInt8 :=
  [0x6D, 0x79, 0x73, 0x71, 0x6C, 0x5F, 0x6E, 0x61, 0x74, 0x69, 0x76, 0x65,
   0x5F, 0x70, 0x61, 0x73, 0x73, 0x77, 0x6F, 0x72, 0x64]

/-- The spec's MySQL handshake scenario packet: capabilities 8D A6 0F 00,
max-packet 00 00 00 01, charset 21, 23 zero bytes, "root" NUL-terminated,
auth length byte 0x14 followed by 20 auth bytes (0xAA here), "test"
NUL-terminated, "mysql_native_password" NUL-terminated, attribute-block
length 0x0C followed by the pair (03 "foo" 03 "bar"). -/
def mysqlScenario : List UInt8 :=
  [0x8D, 0xA6, 0x0F, 0x00,
   0x00, 0x00, 0x00, 0x01,
   0x21] ++ List.replicate 23 0 ++
  [0x72, 0x6F, 0x6F, 0x74, 0x00,
   0x14] ++ List.replicate 20 0xAA ++
  [0x74, 0x65, 0x73, 0x74, 0x00] ++
  mysqlNativePassword ++ [0x00] ++
  [0x0C, 0x03, 0x66, 0x6F, 0x6F, 0x03, 0x62, 0x61, 0x72]

/-- The Database field of a successful decode. -/
def decodedDatabase (l : List UInt8) : Option (List UInt8) :=
  match decodeHandshakeResponse l with
  | .ok p => some p.Database
  | .error _ => none

/-- A 33-byte packet whose capabilities contain only
CLIENT_PLUGIN_AUTH_LENENC_CLIENT_DATA and whose single trailing byte is the
username terminator: the auth section then reads `data[0]` of an empty
slice. -/
def c4PanicInput : List UInt8 :=
  [0x00, 0x00, 0x20, 0x00] ++ List.replicate 29 0

/-- A packet with CLIENT_CONNECT_WITH_DB and
CLIENT_PLUGIN_AUTH_LENENC_CLIENT_DATA set, an empty auth-data section, and a
database name "db" with no 0x00 terminator anywhere after it. -/
def c5SilentInput : List UInt8 :=
  [0x08, 0x00, 0x20, 0x00] ++ List.replicate 28 0 ++ [0x75, 0x00, 0x00, 0x64, 0x62]

/-- The YAML document separator "---\n" that WriteFile prepends when the
session file already existed. -/
def yamlSeparator : List UInt8 := [0x2D, 0x2D, 0x2D, 0x0A]

/-- CreateYamlFile from the yaml package, projected onto the contents of the
one session file it touches (`none` = the file does not exist).  A missing
file is created empty and reported as empty; an existing file — even an
empty one — is reported as non-empty. -/
def CreateYamlFile : Option (List UInt8) → Bool × Option (List UInt8)
  | none => (true, some [])
  | some contents => (false, some contents)

/-- WriteFile from the yaml package, projected onto the contents of the one
session file (path and file name fixed, context never cancelled): prepend
"---\n" unless the file was just created, then open with
O_WRONLY|O_CREATE|O_TRUNC and write — the truncation discards whatever the
file held before. -/
def WriteFile (file : Option (List UInt8)) (docData : List UInt8) : Option (List UInt8) :=
  let created := CreateYamlFile file
  let data := if created.1 then docData else yamlSeparator ++ docData
  some data

/-- ReadFile from the yaml package, projected onto the contents of the one
session file: returns the full current contents. -/
def ReadFile (file : Option (List UInt8)) : Option (List UInt8) := file

/-- A kernel socket data event: direction 0 is ingress, 1 egress (the
factory's TrafficDirectionEnum), with the raw byte payload. -/
structure SocketDataEvent where
  Direction : Int
  Msg : List UInt8
deriving Repr, DecidableEq

/-- Modelled from the spec: the kernel event payload is a fixed-size buffer,
so the zero value of SocketDataEvent (what a receive on a closed Go channel
yields) carries a full buffer of zero bytes; the exact size is irrelevant to
the theorems below. -/
def eventBodyMaxSize : Nat := 16384

/-- The zero value of SocketDataEvent: ingress direction, all-zero payload. -/
def zeroSocketDataEvent : SocketDataEvent :=
  ⟨0, List.replicate eventBodyMaxSize 0⟩

/-- The per-connection queue capacity from ProcessActiveTrackers:
`make(chan SocketDataEvent, 1000)`. -/
def dataEventQueueCapacity : Nat := 1000

/-- Outcome of a Go send on a buffered channel with no ready receiver. -/
inductive ChanSendOutcome
  | enqueued (q : List SocketDataEvent)
  | blocked
deriving Repr, DecidableEq

/-- The `data` case of Factory.ProcessActiveTrackers:
`factory.connections[connectionId] <- *event.Msg.DataEvent` is a plain
buffered-channel send — Go appends to the buffer when it has space and
suspends the sender when the buffer is full.  There is no select/default, no
drop and no warning in the source. -/
def sendDataEvent (q : List SocketDataEvent) (e : SocketDataEvent) : ChanSendOutcome :=
  if q.length < dataEventQueueCapacity then .enqueued (q ++ [e]) else .blocked

/-- A small sample event for concrete instances. -/
def sampleDataEvent : SocketDataEvent := ⟨0, []⟩

/-- Split a byte list into the part before the first CRLF and the part after
it; `none` when no CRLF occurs. -/
def takeLine : List UInt8 → Option (List UInt8 × List UInt8)
  | [] => none
  | b :: rest =>
    match rest with
    | [] => none
    | c :: rest2 =>
      if b = 13 ∧ c = 10 then some ([], rest2)
      else
        match takeLine rest with
        | none => none
        | some (line, r) => some (b :: line, r)

/-- Split a byte list on a separator byte. -/
def splitByte (sep : UInt8) (l : List UInt8) : List (List UInt8) :=
  l.foldr
    (fun b acc =>
      if b = sep then [] :: acc
      else
        match acc with
        | [] => [[b]]
        | h :: t => (b :: h) :: t)
    [[]]

/-- The bytes of "HTTP/1.1". -/
def httpVersionBytes : List UInt8 := [0x48, 0x54, 0x54, 0x50, 0x2F, 0x31, 0x2E, 0x31]

/-- Parse an ASCII decimal status code: all digits, non-empty. -/
def parseStatusCode (l : List UInt8) : Option Nat :=
  if l ≠ [] ∧ l.all (fun b => 0x30 ≤ b ∧ b ≤ 0x39) then
    some (l.foldl (fun n b => n * 10 + (b.toNat - 0x30)) 0)
  else none

/-- A parsed HTTP/1.1 request: method, request URI, and the raw bytes after
the request line. -/
structure HTTPRequest where
  Method : List UInt8
  URI : List UInt8
  Rest : List UInt8
deriving Repr, DecidableEq

/-- A parsed HTTP/1.1 response: status code and the raw bytes after the
status line. -/
structure HTTPResponse where
  StatusCode : Nat
  Rest : List UInt8
deriving Repr, DecidableEq

/-- Modelled from the spec: `pkg.ParseHTTPRequest` (not under src/) parses a
byte buffer as an HTTP/1.1 request — a CRLF-terminated request line of
exactly method, URI and version "HTTP/1.1"; an empty or malformed buffer
fails. -/
def parseHTTPRequest (b : List UInt8) : Option HTTPRequest :=
  match takeLine b with
  | none => none
  | some (line, rest) =>
    match splitByte 0x20 line with
    | [m, u, v] =>
      if v = httpVersionBytes ∧ m ≠ [] ∧ u ≠ [] then some ⟨m, u, rest⟩ else none
    | _ => none

/-- Modelled from the spec: `pkg.ParseHTTPResponse` (not under src/) parses a
byte buffer as an HTTP/1.1 response to the given request — a CRLF-terminated
status line "HTTP/1.1 code ..." with a decimal status code; an empty or
malformed buffer fails. -/
def parseHTTPResponse (b : List UInt8) (_req : Option HTTPRequest) : Option HTTPResponse :=
  match takeLine b with
  | none => none
  | some (line, rest) =>
    match splitByte 0x20 line with
    | v :: code :: _ =>
      if v = httpVersionBytes then
        match parseStatusCode code with
        | some n => some ⟨n, rest⟩
        | none => none
      else none
    | _ => none

/-- A test case emitted by the factory worker: the parsed request/response
pair (the YAML fields built from them in `capture` are irrelevant here). -/
structure TestCase where
  Req : HTTPRequest
  Resp : HTTPResponse
deriving Repr, DecidableEq

/-- Outcome of the worker's emission attempt. -/
inductive EmitOutcome
  | emitted (tc : TestCase)
  | panicked
deriving Repr, DecidableEq

/-- The `capture` function of the conn package, given the results of the two
parses.  The source calls it unconditionally after logging parse errors; a
nil request makes `io.ReadAll(req.Body)` dereference a nil pointer, and a
nil response does the same on `resp.Body` — a Go runtime panic, so nothing
is ever sent on the test-case channel in those cases. -/
def capture (pr : Option HTTPRequest) (ps : Option HTTPResponse) : EmitOutcome :=
  match pr with
  | none => .panicked
  | some r =>
    match ps with
    | none => .panicked
    | some s => .emitted ⟨r, s⟩

/-- The emission block of Factory.Worker: parse the request accumulator,
parse the response accumulator against it, and call capture — errors are
only logged, never short-circuited. -/
def emitPair (req res : List UInt8) : EmitOutcome :=
  capture (parseHTTPRequest req) (parseHTTPResponse res (parseHTTPRequest req))

/-- The spec's factory scenario request bytes "GET / HTTP/1.1\r\n". -/
def sampleRequestBytes : List UInt8 :=
  [0x47, 0x45, 0x54, 0x20, 0x2F, 0x20] ++ httpVersionBytes ++ [0x0D, 0x0A]

/-- The spec's factory scenario response status line "HTTP/1.1 200 OK\r\n". -/
def sampleResponseBytes : List UInt8 :=
  httpVersionBytes ++ [0x20, 0x32, 0x30, 0x30, 0x20, 0x4F, 0x4B, 0x0D, 0x0A]

/-- The mutable state of Factory.Worker: `lastEventType` starts at -1, the
request and response accumulators start empty and are never cleared. -/
structure WorkerState where
  lastEventType : Int
  req : List UInt8
  res : List UInt8
deriving Repr, DecidableEq

/-- Worker state at goroutine start. -/
def initialWorkerState : WorkerState := ⟨-1, [], []⟩

/-- Result of one pass through the worker's data arm. -/
inductive WorkerStepResult
  | next (st : WorkerState) (emitted : Option TestCase)
  | panicked
deriving Repr, DecidableEq

/-- One pass through the `case dataEvent := <-workerChan` arm of
Factory.Worker: append the payload to the accumulator matching the
direction, then on an egress-to-ingress transition attempt an emission
(which can panic in capture), and finally set lastEventType to the event's
direction.  No accumulator is ever cleared. -/
def workerDataStep (st : WorkerState) (e : SocketDataEvent) : WorkerStepResult :=
  let req := if e.Direction = 0 then st.req ++ e.Msg else st.req
  let res := if e.Direction = 1 then st.res ++ e.Msg else st.res
  if e.Direction = 0 ∧ st.lastEventType = 1 then
    match emitPair req res with
    | .panicked => .panicked
    | .emitted tc => .next ⟨e.Direction, req, res⟩ (some tc)
  else .next ⟨e.Direction, req, res⟩ none

/-- A Go receive from a closed channel: buffered values first, then
immediately the zero value, forever.  The worker receives without the
`, ok` form, so it cannot tell the two apart. -/
def recvClosed : List SocketDataEvent → SocketDataEvent × List SocketDataEvent
  | [] => (zeroSocketDataEvent, [])
  | e :: rest => (e, rest)

/-- How a run of the worker loop can stand after finitely many iterations. -/
inductive WorkerOutcome
  | running (st : WorkerState)
  | exited
  | panicked
deriving Repr, DecidableEq

/-- Factory.Worker's select loop after its channel has been closed.  The
receive arm is then always immediately ready, so the fresh 2-second
`time.After` timer never fires; the only exit is the `ctx.Done` arm,
modelled by `ctxDone`.  `fuel` bounds how many iterations are observed. -/
def workerLoopClosed (ctxDone : Bool) : Nat → List SocketDataEvent → WorkerState → WorkerOutcome
  | 0, _, st => .running st
  | fuel + 1, buf, st =>
    if ctxDone then .exited
    else
      match workerDataStep st (recvClosed buf).1 with
      | .panicked => .panicked
      | .next st2 _ => workerLoopClosed ctxDone fuel (recvClosed buf).2 st2

/-- A byte absent from a list is never found by indexByte. -/
theorem indexByte_eq_none (l : List UInt8) (target : UInt8)
    (h : ∀ b ∈ l, b ≠ target) : indexByte l target = none := by
  induction l with
  | nil => rfl
  | cons b rest ih =>
    unfold indexByte
    rw [if_neg (h b (List.mem_cons_self b rest))]
    rw [ih (fun x hx => h x (List.mem_cons_of_mem b hx))]
    rfl

/-- C1: PostgresV1.MatchType returns true exactly when the buffer has length at
least 8 and the big-endian 32-bit integer at bytes [4..8) equals 0x00030000 or
80877103; every other buffer (in particular every buffer shorter than 8 bytes)
yields false. -/
theorem postgres_matchType_iff (buf : List UInt8) :
    PostgresV1.MatchType buf = true ↔
      8 ≤ buf.length ∧
        (beUint32 (buf.getD 4 0) (buf.getD 5 0) (buf.getD 6 0) (buf.getD 7 0) = 0x00030000 ∨
         beUint32 (buf.getD 4 0) (buf.getD 5 0) (buf.getD 6 0) (buf.getD 7 0) = 80877103) := by
  unfold PostgresV1.MatchType
  by_cases h : buf.length < 8
  · simp only [if_pos h]
    constructor
    · intro hfalse
      exact absurd hfalse (by simp)
    · intro ⟨hlen, _⟩
      omega
  · simp only [if_neg h]
    by_cases hv : beUint32 (buf.getD 4 0) (buf.getD 5 0) (buf.getD 6 0) (buf.getD 7 0) = 80877103
    · simp only [if_pos hv]
      constructor
      · intro _
        exact ⟨by omega, Or.inr hv⟩
      · intro _
        trivial
    · simp only [if_neg hv, beq_iff_eq]
      constructor
      · intro heq
        exact ⟨by omega, Or.inl heq⟩
      · intro ⟨_, hor⟩
        cases hor with
        | inl hl => exact hl
        | inr hr => exact absurd hr hv

/-- C1 witness: the spec's PG classifier scenario `00 00 00 08 00 03 00 00`
matches as protocol version 3.0. -/
theorem postgres_matchType_iff_witness :
    PostgresV1.MatchType pgStartupScenario = true :=
  (postgres_matchType_iff pgStartupScenario).mpr ⟨by decide, Or.inl (by decide)⟩

/-- C2 counterexample: on the spec's MySQL scenario bytes the decoder does
not produce Database "test" (bytes 74 65 73 74): the legacy auth branch
leaves the cursor on the auth bytes, so the database name swallows the last
19 auth bytes. -/
theorem mysql_scenario_database_ne_test :
    decodedDatabase mysqlScenario ≠ some [0x74, 0x65, 0x73, 0x74] := by
  decide

/-- C2 amended: what decodeHandshakeResponse actually returns on the
scenario bytes.  Username and AuthPluginName are as claimed, but AuthData is
shifted by one byte and not consumed, Database is the last 19 auth bytes
followed by "test", ConnectAttributes is never parsed (the capability bytes
8D A6 0F 00 do not contain CLIENT_CONNECT_ATTRS = 0x100000), and the
attribute-block length byte 0x0C is read as a zstd compression level. -/
theorem mysql_scenario_decode_eq :
    decodeHandshakeResponse mysqlScenario = .ok {
      CapabilityFlags := 0xFA68D
      MaxPacketSize := 0x1000000
      CharacterSet := 0x21
      Reserved := List.replicate 23 0
      Username := [0x72, 0x6F, 0x6F, 0x74]
      AuthData := List.replicate 19 0xAA ++ [0x74]
      Database := List.replicate 19 0xAA ++ [0x74, 0x65, 0x73, 0x74]
      AuthPluginName := mysqlNativePassword
      ConnectAttributes := none
      ZstdCompressionLevel := 0x0C } := by
  decide

/-- C3: writing two documents in succession does not append — the second
WriteFile truncates the file, so ReadFile returns only the separator and the
second document, not the first document followed by the separator and the
second. -/
theorem writeFile_truncates_previous_doc :
    ReadFile (WriteFile (WriteFile none [0x61]) [0x62]) = some (yamlSeparator ++ [0x62]) ∧
    yamlSeparator ++ [0x62] ≠ [0x61] ++ yamlSeparator ++ [0x62] := by
  constructor
  · decide
  · decide

/-- C4: decodeHandshakeResponse is not total — on c4PanicInput the source
indexes `data[0]` with `data` empty, a Go runtime panic (index out of
range), not a returned Malformed error. -/
theorem decodeHandshakeResponse_panic_on_short_auth :
    decodeHandshakeResponse c4PanicInput = .error .panic := by
  decide

/-- C5 counterexample: with CLIENT_CONNECT_WITH_DB set and no terminator
after the database name, decodeHandshakeResponse succeeds (Database left
empty) instead of returning an error. -/
theorem decode_missing_db_terminator_succeeds :
    decodeHandshakeResponse c5SilentInput = .ok {
      CapabilityFlags := 0x200008
      MaxPacketSize := 0
      CharacterSet := 0
      Reserved := List.replicate 23 0
      Username := [0x75]
      AuthData := []
      Database := []
      AuthPluginName := []
      ConnectAttributes := none
      ZstdCompressionLevel := 0 } ∧ 0x200008 &&& CLIENT_CONNECT_WITH_DB ≠ 0 := by
  constructor
  · decide
  · decide

/-- C5 amended: a missing username terminator and, when CLIENT_PLUGIN_AUTH
is set, a missing plugin-name terminator are errors; but when
CLIENT_CONNECT_WITH_DB is set, a missing database terminator is silently
skipped — the database field stays empty, the input is not consumed, and no
error is raised. -/
theorem handshake_null_terminator_policy :
    (∀ buf : List UInt8, 32 ≤ buf.length → (∀ b ∈ buf.drop 32, b ≠ 0) →
      decodeHandshakeResponse buf =
        .error (.msg "malformed handshake response packet: missing null terminator for Username")) ∧
    (∀ (flags : Nat) (data : List UInt8), flags &&& CLIENT_PLUGIN_AUTH ≠ 0 →
      (∀ b ∈ data, b ≠ 0) →
      readPluginName flags data =
        .error (.msg "malformed handshake response packet: missing null terminator for AuthPluginName")) ∧
    (∀ (flags : Nat) (data : List UInt8), flags &&& CLIENT_CONNECT_WITH_DB ≠ 0 →
      (∀ b ∈ data, b ≠ 0) →
      readDatabase flags data = ([], data)) := by
  refine ⟨?_, ?_, ?_⟩
  · intro buf h32 hz
    have hnone : indexByte (buf.drop 32) 0 = none := indexByte_eq_none _ _ hz
    unfold decodeHandshakeResponse
    rw [if_neg (by omega)]
    simp only [hnone]
  · intro flags data hf hz
    unfold readPluginName
    rw [if_pos hf, indexByte_eq_none _ _ hz]
  · intro flags data hf hz
    unfold readDatabase
    rw [if_pos hf, indexByte_eq_none _ _ hz]

/-- C5 witness: the three branches of the terminator policy at concrete
inputs — a 33-byte packet whose post-header byte is nonzero, and plugin-name
and database sections handed a terminator-free byte list. -/
theorem handshake_null_terminator_policy_witness :
    decodeHandshakeResponse (List.replicate 32 0 ++ [0x41]) =
      .error (.msg "malformed handshake response packet: missing null terminator for Username") ∧
    readPluginName 0x080000 [0x41] =
      .error (.msg "malformed handshake response packet: missing null terminator for AuthPluginName") ∧
    readDatabase 0x08 [0x41] = ([], [0x41]) :=
  ⟨handshake_null_terminator_policy.1 (List.replicate 32 0 ++ [0x41]) (by decide) (by decide),
   handshake_null_terminator_policy.2.1 0x080000 [0x41] (by decide) (by decide),
   handshake_null_terminator_policy.2.2 0x08 [0x41] (by decide) (by decide)⟩

/-- C6 counterexample: with the per-connection queue full (1000 events), the
factory's data dispatch blocks the event producer instead of dropping the
event and returning. -/
theorem sendDataEvent_full_queue_blocks :
    sendDataEvent (List.replicate 1000 sampleDataEvent) sampleDataEvent = .blocked := by
  unfold sendDataEvent dataEventQueueCapacity
  rw [List.length_replicate, if_neg (by omega)]

/-- C6 amended: the dispatch of a `data` event is a plain blocking channel
send: the event is appended in order while the queue holds fewer than 1000
events, and the send blocks the producer when the queue is full; no event is
ever dropped and no warning is issued. -/
theorem sendDataEvent_enqueue_or_block (q : List SocketDataEvent) (e : SocketDataEvent) :
    (q.length < 1000 → sendDataEvent q e = .enqueued (q ++ [e])) ∧
    (1000 ≤ q.length → sendDataEvent q e = .blocked) := by
  constructor
  · intro h
    simp [sendDataEvent, dataEventQueueCapacity, h]
  · intro h
    simp [sendDataEvent, dataEventQueueCapacity, Nat.not_lt.mpr h]

/-- C6 witness: the send appends to an empty queue and blocks on a full
one. -/
theorem sendDataEvent_enqueue_or_block_witness :
    sendDataEvent [] sampleDataEvent = .enqueued [sampleDataEvent] ∧
    sendDataEvent (List.replicate 1000 sampleDataEvent) sampleDataEvent = .blocked :=
  ⟨(sendDataEvent_enqueue_or_block [] sampleDataEvent).1 (by decide),
   (sendDataEvent_enqueue_or_block (List.replicate 1000 sampleDataEvent) sampleDataEvent).2
     (by simp only [List.length_replicate]; omega)⟩

/-- C7: after its channel is closed and absent context cancellation, the
worker never exits — every number of loop iterations leaves it still
running (on an endless stream of zero-value events) or dead from a capture
panic; the drain-and-terminate the spec describes does not happen. -/
theorem workerLoop_never_exits_after_close :
    ∀ (fuel : Nat) (buf : List SocketDataEvent) (st : WorkerState),
      workerLoopClosed false fuel buf st ≠ WorkerOutcome.exited := by
  intro fuel
  induction fuel with
  | zero =>
    intro buf st h
    exact WorkerOutcome.noConfusion h
  | succ n ih =>
    intro buf st
    unfold workerLoopClosed
    rw [if_neg (by simp)]
    cases h : workerDataStep st (recvClosed buf).1 with
    | next st2 em =>
      simp only [h]
      exact ih (recvClosed buf).2 st2
    | panicked =>
      simp only [h]
      intro hc
      exact WorkerOutcome.noConfusion hc

/-- C7 witness: a connection that saw open then close (empty buffer,
initial state) is still not exited after five iterations. -/
theorem workerLoop_never_exits_after_close_witness :
    workerLoopClosed false 5 [] initialWorkerState ≠ WorkerOutcome.exited :=
  workerLoop_never_exits_after_close 5 [] initialWorkerState

/-- C8: every test case actually emitted (sent on the channel) comes from
accumulators that both parse — and hence are both non-empty; when either
accumulator is empty or unparseable, no test case is emitted (the attempt
dies in capture instead). -/
theorem emitted_testcase_parses (req res : List UInt8) (tc : TestCase)
    (h : emitPair req res = .emitted tc) :
    parseHTTPRequest req ≠ none ∧
    parseHTTPResponse res (parseHTTPRequest req) ≠ none ∧
    req ≠ [] ∧ res ≠ [] := by
  unfold emitPair capture at h
  cases hr : parseHTTPRequest req with
  | none =>
    rw [hr] at h
    exact absurd h (by simp)
  | some r =>
    rw [hr] at h
    cases hs : parseHTTPResponse res (parseHTTPRequest req) with
    | none =>
      rw [hr] at hs
      rw [hs] at h
      exact absurd h (by simp)
    | some s =>
      refine ⟨by simp [hr], by rw [hr] at hs; simp [hr, hs], ?_, ?_⟩
      · intro hempty
        rw [hempty] at hr
        rw [show parseHTTPRequest [] = none from rfl] at hr
        exact Option.noConfusion hr
      · intro hempty
        rw [hempty, hr] at hs
        rw [show parseHTTPResponse [] (some r) = none from rfl] at hs
        exact Option.noConfusion hs

/-- C8 witness: the scenario pair is emitted, so both its parses succeed and
both accumulators are non-empty. -/
theorem emitted_testcase_parses_witness :
    parseHTTPRequest sampleRequestBytes ≠ none ∧
    parseHTTPResponse sampleResponseBytes (parseHTTPRequest sampleRequestBytes) ≠ none ∧
    sampleRequestBytes ≠ [] ∧ sampleResponseBytes ≠ [] :=
  emitted_testcase_parses sampleRequestBytes sampleResponseBytes
    ⟨⟨[0x47, 0x45, 0x54], [0x2F], []⟩, ⟨200, []⟩⟩ (by decide)

/-- C9: the auth-data length encoding.  Without
CLIENT_PLUGIN_AUTH_LENENC_CLIENT_DATA the source reads one length byte,
skips exactly one further byte, and takes the next `len` bytes as AuthData
(the legacy two-byte form, without consuming them); with the flag set only
the single length byte precedes the auth data, which is consumed. -/
theorem readAuth_length_byte_forms :
    (∀ (flags : Nat) (len skip : UInt8) (rest : List UInt8),
      flags &&& CLIENT_PLUGIN_AUTH_LENENC_CLIENT_DATA = 0 →
      len.toNat ≤ rest.length →
      readAuth flags (len :: skip :: rest) = .ok (rest.take len.toNat, rest)) ∧
    (∀ (flags : Nat) (len : UInt8) (rest : List UInt8),
      flags &&& CLIENT_PLUGIN_AUTH_LENENC_CLIENT_DATA ≠ 0 →
      0 < len.toNat → len.toNat ≤ rest.length →
      readAuth flags (len :: rest) = .ok (rest.take len.toNat, rest.drop len.toNat)) := by
  constructor
  · intro flags len skip rest hf hle
    unfold readAuth
    rw [if_neg (by simp [hf])]
    simp [goIndex, goDrop, goTake, hle]
  · intro flags len rest hf hpos hle
    unfold readAuth
    rw [if_pos hf]
    simp [goIndex, goDrop, hpos, hle, Nat.not_lt.mpr hle]

/-- C9 witness: both auth-data forms at concrete inputs — legacy two-byte
form `02 09 AA BB CC` and length-encoded form `02 AA BB CC`. -/
theorem readAuth_length_byte_forms_witness :
    readAuth 0 [0x02, 0x09, 0xAA, 0xBB, 0xCC] = .ok ([0xAA, 0xBB], [0xAA, 0xBB, 0xCC]) ∧
    readAuth 0x0200000 [0x02, 0xAA, 0xBB, 0xCC] = .ok ([0xAA, 0xBB], [0xCC]) :=
  ⟨readAuth_length_byte_forms.1 0 0x02 0x09 [0xAA, 0xBB, 0xCC] (by decide) (by decide),
   readAuth_length_byte_forms.2 0x0200000 0x02 [0xAA, 0xBB, 0xCC] (by decide) (by decide) (by decide)⟩

/-- C10: Generic.MatchType returns false for every input buffer — the
generic codec never claims a connection during classification; it can only
be chosen by the dispatcher's explicit fallback. -/
theorem generic_matchType_always_false :
    ∀ buffer : List UInt8, Generic.MatchType buffer = false := by
  intro buffer
  rfl
